import Mathlib

/-!
Verification of the hbp-validation-client Python library against its
natural-language specification.  The definitions below are a shallow
embedding of the code in `hbp_validation_framework/__init__.py` and
`hbp_validation_framework/utils.py`: pure fragments become Lean functions,
network traffic is made explicit as a list of request events emitted by
each operation, and Python exceptions become an error type returned
through `Except`.
-/

set_option autoImplicit false

namespace HbpVF

/-- Python runtime errors raised by the client code.  `exception msg` models a
plain `raise Exception(msg)`; the other constructors model built-in error
classes raised implicitly by the interpreter (failed `int()`/`float()`
conversion, a missing dictionary key, a missing object attribute). -/
inductive PyErr where
  | exception (msg : String)
  | valueError (msg : String)
  | keyError (key : String)
  | attributeError (attr : String)
  deriving Repr, DecidableEq

/-- Equality of `Except` results is decidable when both components are. -/
instance {ε α : Type} [DecidableEq ε] [DecidableEq α] : DecidableEq (Except ε α) := fun x y =>
  match x, y with
  | .ok a, .ok b =>
      if h : a = b then .isTrue (by rw [h]) else .isFalse (by intro hh; cases hh; exact h rfl)
  | .error a, .error b =>
      if h : a = b then .isTrue (by rw [h]) else .isFalse (by intro hh; cases hh; exact h rfl)
  | .ok _, .error _ => .isFalse (by intro h; cases h)
  | .error _, .ok _ => .isFalse (by intro h; cases h)

/-- Parsed JSON values, as produced by `json.load` / `response.json()`. -/
inductive JsonVal where
  | null
  | bool (b : Bool)
  | int (n : Int)
  | str (s : String)
  | arr (xs : List JsonVal)
  | obj (fields : List (String × JsonVal))

/-- Network request events, in the order the client issues them.  `login`
stands for the whole login protocol performed by the `BaseClient`
constructor (`_hbp_auth`). -/
inductive NetEvent where
  | get (url : String)
  | post (url : String)
  | put (url : String)
  | login
  deriving Repr, DecidableEq

/-- An HTTP response as seen through the `requests` library: the status code,
the raw `content`, and the parsed value returned by `.json()`. -/
structure Response where
  status : Nat
  content : String
  body : JsonVal

/-- Python 2 `str()` of a `requests` response object, e.g. `<Response [200]>`.
The source compares this string against literals to test status codes. -/
def respStr (r : Response) : String :=
  "<Response [" ++ toString r.status ++ "]>"

mutual

/-- Python `repr` of a parsed JSON value (Python 2 flavour: `None`, `True`,
quoted strings, bracketed lists, braced dicts). -/
def pyRepr : JsonVal → String
  | .null => "None"
  | .bool b => if b then "True" else "False"
  | .int n => toString n
  | .str s => "'" ++ s ++ "'"
  | .arr xs => "[" ++ pyReprList xs ++ "]"
  | .obj fs => "\x7b" ++ pyReprObj fs ++ "\x7d"

/-- Comma-separated `repr`s of the elements of a Python list. -/
def pyReprList : List JsonVal → String
  | [] => ""
  | [x] => pyRepr x
  | x :: y :: xs => pyRepr x ++ ", " ++ pyReprList (y :: xs)

/-- Comma-separated `'key': repr(value)` entries of a Python dict. -/
def pyReprObj : List (String × JsonVal) → String
  | [] => ""
  | [(k, v)] => "'" ++ k ++ "': " ++ pyRepr v
  | (k, v) :: y :: xs => "'" ++ k ++ "': " ++ pyRepr v ++ ", " ++ pyReprObj (y :: xs)

end

/-- Python `str()` of a parsed JSON value: identical to `repr` except that a
top-level string is returned unquoted. -/
def pyStr : JsonVal → String
  | .str s => s
  | v => pyRepr v

/-- Concatenation of a list of strings with a separator between elements
(kernel-computable replacement for library interpolation). -/
def joinWith (sep : String) : List String → String
  | [] => ""
  | [x] => x
  | x :: y :: xs => x ++ sep ++ joinWith sep (y :: xs)

/-- Python 2 `str()` of a list of strings, as interpolated into the
invalid-value error messages of `add_test` / `register_model`. -/
def pyStrList (xs : List String) : String :=
  "[" ++ joinWith ", " (xs.map (fun s => "'" ++ s ++ "'")) ++ "]"

/-- Python `s.split(sep)` on a character list: splits at every occurrence of
the separator, keeping empty segments, with `[""]` for the empty string. -/
def splitChar (sep : Char) : List Char → List (List Char)
  | [] => [[]]
  | c :: rest =>
      match splitChar sep rest with
      | [] => [[c]]
      | g :: gs => if c = sep then [] :: g :: gs else (c :: g) :: gs

/-- First-match association-list lookup, modelling a Python dict read that
yields `None`-like absence instead of raising (the raising variant is
`dictGet`). -/
def alookup {α : Type} : List (String × α) → String → Option α
  | [], _ => none
  | (k, v) :: rest, key => if k = key then some v else alookup rest key

/-- Subscript access `d[k]` on a parsed JSON dict: raises `KeyError` when the
key is absent and `TypeError`-style errors when the value is not a dict. -/
def jsonKey : JsonVal → String → Except PyErr JsonVal
  | .obj fs, k =>
      match alookup fs k with
      | some v => .ok v
      | none => .error (.keyError k)
  | _, _ => .error (.exception "TypeError: value is not subscriptable by string")

/-- Subscript access `d[k]` whose result must be a string (because the source
immediately concatenates it into a URL, which raises `TypeError` for
non-string values). -/
def jsonKeyStr (v : JsonVal) : String → Except PyErr String := fun k =>
  match jsonKey v k with
  | .error e => .error e
  | .ok (.str s) => .ok s
  | .ok _ => .error (.exception "TypeError: cannot concatenate str and non-str")

/-- Whether the character list `pat` occurs as a prefix of `s`. -/
def listPrefixOf : List Char → List Char → Bool
  | [], _ => true
  | _ :: _, [] => false
  | a :: as, b :: bs => a == b && listPrefixOf as bs

/-- Whether the character list `pat` occurs contiguously anywhere in `s`. -/
def listInfixIn (pat : List Char) : List Char → Bool
  | [] => listPrefixOf pat []
  | b :: bs => listPrefixOf pat (b :: bs) || listInfixIn pat bs

/-- Python `pat in s` on strings: substring containment. -/
def strContains (s pat : String) : Bool :=
  listInfixIn pat.toList s.toList

/-- Numeric value of a digit run; the empty run counts as zero (used for the
integer or fractional part of a decimal literal such as `.5` or `5.`). -/
def digitsVal (cs : List Char) : Nat :=
  cs.foldl (fun a c => a * 10 + (c.toNat - 48)) 0

/-- Python 2 `int(s)` restricted to the decimal forms the client feeds it: an
optional sign followed by one or more digits; anything else raises
`ValueError` (modelled as `none`). -/
def pyInt? (s : String) : Option Int :=
  let core : List Char → Option Int := fun cs =>
    if cs ≠ [] ∧ cs.all (·.isDigit) then some (digitsVal cs) else none
  match s.toList with
  | '-' :: rest => (core rest).map (fun n => -n)
  | '+' :: rest => core rest
  | cs => core cs

/-- Python `float(s)` restricted to plain decimal literals (optional sign,
digits, optional point and fraction digits), the only forms the observation
data exercises; the exact value is kept as a rational.  Any other input
raises `ValueError` (modelled as `none`). -/
def pyFloat? (s : String) : Option ℚ :=
  let core : List Char → Option ℚ := fun cs =>
    let intPart := cs.takeWhile (· ≠ '.')
    match cs.dropWhile (· ≠ '.') with
    | [] =>
        if cs ≠ [] ∧ cs.all (·.isDigit) then some ((digitsVal cs : ℚ)) else none
    | '.' :: frac =>
        if (intPart ≠ [] ∨ frac ≠ []) ∧ intPart.all (·.isDigit) ∧ frac.all (·.isDigit) then
          some ((digitsVal intPart : ℚ) + (digitsVal frac : ℚ) / (10 ^ frac.length))
        else none
    | _ => none
  match s.toList with
  | '-' :: rest => (core rest).map (fun q => -q)
  | '+' :: rest => core rest
  | cs => core cs

/-- A value of the raw observation mapping loaded by `_load_reference_data`:
either a scalar string or a nested structured record (a dict). -/
inductive ObsVal where
  | s (v : String)
  | d (m : List (String × String))
  deriving Repr, DecidableEq

/-- A coerced observation value as built by `get_validation_test`: an integer,
a float, or a `quantities.Quantity` with a rational magnitude and a unit
string. -/
inductive CoercedVal where
  | intVal (n : Int)
  | floatVal (q : ℚ)
  | quantity (mag : ℚ) (unit : String)
  deriving Repr, DecidableEq

/-- Per-key coercion from `get_validation_test`: try `int(val)`, on
`ValueError` try `float(val)`, on `ValueError` split on spaces and build a
quantity from `float(parts[0])` and the space-joined remaining parts (a
failing magnitude parse propagates as an uncaught `ValueError`). -/
def coerceValue (val : String) : Except PyErr CoercedVal :=
  match pyInt? val with
  | some n => .ok (.intVal n)
  | none =>
      match pyFloat? val with
      | some q => .ok (.floatVal q)
      | none =>
          let parts := (splitChar ' ' val.toList).map (fun cs => String.mk cs)
          match pyFloat? (parts.headD "") with
          | some q => .ok (.quantity q (joinWith " " (parts.drop 1)))
          | none => .error (.valueError ("could not convert string to float: " ++ parts.headD ""))

/-- The per-key coercion loop of `get_validation_test` over all key/value
pairs; a nested dict met inside the loop hits `int(dict)` and raises. -/
def coerceAll : List (String × ObsVal) → Except PyErr (List (String × CoercedVal))
  | [] => .ok []
  | (_, .d _) :: _ => .error (.exception "TypeError: int() argument must be a string or a number, not 'dict'")
  | (k, .s v) :: rest =>
      match coerceValue v with
      | .error e => .error e
      | .ok c =>
          match coerceAll rest with
          | .error e => .error e
          | .ok cs => .ok ((k, c) :: cs)

/-- The observation-coercion step of `get_validation_test`
(`__init__.py` lines 320-334): when the first value of the mapping is a
dict the whole mapping is passed through unchanged (left summand),
otherwise every value is coerced per key (right summand).  An empty
mapping indexes `values()[0]` out of range. -/
def coerce_observations (data : List (String × ObsVal)) :
    Except PyErr (List (String × ObsVal) ⊕ List (String × CoercedVal)) :=
  match data with
  | [] => .error (.exception "IndexError: list index out of range")
  | (_, .d _) :: _ => .ok (.inl data)
  | (_, .s _) :: _ =>
      match coerceAll data with
      | .error e => .error e
      | .ok cs => .ok (.inr cs)

/-- The default service base URL (`VALIDATION_FRAMEWORK_URL`). -/
def VALIDATION_FRAMEWORK_URL : String := "https://validation-dev.brainsimulation.eu"

/-- The parsed body of the option-enumeration response used by
`get_options()`: a map from parameter name to the list of allowed values
(the source pipes it through `ast.literal_eval(json.dumps(data))`, which is
the identity on such data). -/
def OptionMap : Type := List (String × List String)

/-- URL of the option-set GET issued by `get_options()` when called with no
argument (the `param` defaults to "all"). -/
def optionsUrl (base : String) : String :=
  base ++ "/authorizedcollabparameterrest/?python_client=true&parameters=all&format=json"

/-- URL of the create POST / edit PUT of `add_test` and `edit_test`. -/
def testDefUrl (base : String) : String :=
  base ++ "/validationtestdef/?format=json"

/-- The six sequential enumerated-field checks shared verbatim by `add_test`
and `edit_test`: each check subscripts the option map (raising `KeyError`
when the key is absent) and raises a descriptive exception for a value
outside the list.  The membership test for `data_modality` reads the key
"data_modalities" while the error message reads the key "data_modality".
Returns the raised error, or `none` when all checks pass. -/
def validateTestFields (opts : OptionMap)
    (species brain_region cell_type data_modality test_type score_type : String) :
    Option PyErr :=
  match alookup opts "species" with
  | none => some (.keyError "species")
  | some spl =>
    if species ∉ spl then
      some (.exception ("species = '" ++ species ++ "' is invalid.\nValue has to be one of these: " ++ pyStrList spl))
    else match alookup opts "brain_region" with
    | none => some (.keyError "brain_region")
    | some brl =>
      if brain_region ∉ brl then
        some (.exception ("brain_region = '" ++ brain_region ++ "' is invalid.\nValue has to be one of these: " ++ pyStrList brl))
      else match alookup opts "cell_type" with
      | none => some (.keyError "cell_type")
      | some ctl =>
        if cell_type ∉ ctl then
          some (.exception ("cell_type = '" ++ cell_type ++ "' is invalid.\nValue has to be one of these: " ++ pyStrList ctl))
        else match alookup opts "data_modalities" with
        | none => some (.keyError "data_modalities")
        | some dml =>
          if data_modality ∉ dml then
            match alookup opts "data_modality" with
            | none => some (.keyError "data_modality")
            | some dmml =>
                some (.exception ("data_modality = '" ++ data_modality ++ "' is invalid.\nValue has to be one of these: " ++ pyStrList dmml))
          else match alookup opts "test_type" with
          | none => some (.keyError "test_type")
          | some ttl =>
            if test_type ∉ ttl then
              some (.exception ("test_type = '" ++ test_type ++ "' is invalid.\nValue has to be one of these: " ++ pyStrList ttl))
            else match alookup opts "score_type" with
            | none => some (.keyError "score_type")
            | some stl =>
              if score_type ∉ stl then
                some (.exception ("score_type = '" ++ score_type ++ "' is invalid.\nValue has to be one of these: " ++ pyStrList stl))
              else none

/-- Shallow embedding of `TestLibrary.add_test` (`__init__.py` lines 369-466).
`opts` is the parsed body of the option-set GET issued by the initial
`self.get_options()` call and `createResp` is the response to the create
POST.  Only the six validated fields steer control flow; the remaining
arguments enter only the POST payload, which is abstracted to the request
event.  Returns the Python result (`response.json()` on status 201, the
raised error otherwise) paired with the network requests issued. -/
def add_test (base : String) (opts : OptionMap) (createResp : Response)
    (species brain_region cell_type data_modality test_type score_type : String) :
    Except PyErr JsonVal × List NetEvent :=
  let ev := [NetEvent.get (optionsUrl base)]
  match validateTestFields opts species brain_region cell_type data_modality test_type score_type with
  | some e => (.error e, ev)
  | none =>
      let ev := ev ++ [NetEvent.post (testDefUrl base)]
      if respStr createResp = "<Response [201]>" then (.ok createResp.body, ev)
      else (.error (.exception ("Error in adding test. Response = " ++ pyStr createResp.body)), ev)

/-- Shallow embedding of `TestLibrary.edit_test` (`__init__.py` lines
468-565).  The source performs no check at all on `test_id` (it enters only
the PUT payload, renamed to `id`); validation and requests mirror
`add_test` with a PUT expecting status 202. -/
def edit_test (base : String) (opts : OptionMap) (putResp : Response) (test_id : String)
    (species brain_region cell_type data_modality test_type score_type : String) :
    Except PyErr JsonVal × List NetEvent :=
  let ev := [NetEvent.get (optionsUrl base)]
  match validateTestFields opts species brain_region cell_type data_modality test_type score_type with
  | some e => (.error e, ev)
  | none =>
      let ev := ev ++ [NetEvent.put (testDefUrl base)]
      if respStr putResp = "<Response [202]>" then (.ok putResp.body, ev)
      else (.error (.exception ("Error in editing test. Response = " ++ pyStr putResp.body)), ev)

/-- The four sequential enumerated-field checks shared by `register_model`
and `edit_model` (`cell_type`, `model_type`, `brain_region`, `species`, in
that order). -/
def validateModelFields (opts : OptionMap)
    (cell_type model_type brain_region species : String) : Option PyErr :=
  match alookup opts "cell_type" with
  | none => some (.keyError "cell_type")
  | some ctl =>
    if cell_type ∉ ctl then
      some (.exception ("cell_type = '" ++ cell_type ++ "' is invalid.\nValue has to be one of these: " ++ pyStrList ctl))
    else match alookup opts "model_type" with
    | none => some (.keyError "model_type")
    | some mtl =>
      if model_type ∉ mtl then
        some (.exception ("model_type = '" ++ model_type ++ "' is invalid.\nValue has to be one of these: " ++ pyStrList mtl))
      else match alookup opts "brain_region" with
      | none => some (.keyError "brain_region")
      | some brl =>
        if brain_region ∉ brl then
          some (.exception ("brain_region = '" ++ brain_region ++ "' is invalid.\nValue has to be one of these: " ++ pyStrList brl))
        else match alookup opts "species" with
        | none => some (.keyError "species")
        | some spl =>
          if species ∉ spl then
            some (.exception ("species = '" ++ species ++ "' is invalid.\nValue has to be one of these: " ++ pyStrList spl))
          else none

/-- Shallow embedding of `ModelCatalog.register_model` (`__init__.py` lines
1120-1225).  No check is performed on `app_id`; it enters only the POST
URL.  The `private` flag is typed as a Bool here, so the source's
`private not in [True, False]` check always passes and the flag is
stringified into the payload (abstracted).  Fields not steering control
flow enter only the payload. -/
def register_model (base : String) (opts : OptionMap) (createResp : Response)
    (app_id : String) (privacy : Bool)
    (cell_type model_type brain_region species organization : String) :
    Except PyErr JsonVal × List NetEvent :=
  let ev := [NetEvent.get (optionsUrl base)]
  match validateModelFields opts cell_type model_type brain_region species with
  | some e => (.error e, ev)
  | none =>
    match alookup opts "organization" with
    | none => (.error (.keyError "organization"), ev)
    | some orgl =>
      if organization ∉ orgl then
        (.error (.exception ("organization = '" ++ organization ++ "' is invalid.\nValue has to be one of these: " ++ pyStrList (orgl ++ [""]))), ev)
      else
        let ev := ev ++ [NetEvent.post (base ++ "/scientificmodel/?app_id=" ++ app_id ++ "&format=json")]
        if respStr createResp = "<Response [201]>" then (.ok createResp.body, ev)
        else (.error (.exception ("Error in adding model. Response = " ++ pyStr createResp.body)), ev)

/-- Shallow embedding of `ModelCatalog.edit_model` (`__init__.py` lines
1227-1317).  The source performs no check at all on `model_id` (it enters
only the PUT payload, renamed to `id`); organization is not re-validated;
the PUT expects status 202. -/
def edit_model (base : String) (opts : OptionMap) (putResp : Response)
    (model_id app_id : String) (privacy : Bool)
    (cell_type model_type brain_region species : String) :
    Except PyErr JsonVal × List NetEvent :=
  let ev := [NetEvent.get (optionsUrl base)]
  match validateModelFields opts cell_type model_type brain_region species with
  | some e => (.error e, ev)
  | none =>
      let ev := ev ++ [NetEvent.put (base ++ "/scientificmodel/?app_id=" ++ app_id ++ "&format=json")]
      if respStr putResp = "<Response [202]>" then (.ok putResp.body, ev)
      else (.error (.exception ("Error in updating model. Response = " ++ pyStr putResp.body)), ev)

/-- Shallow embedding of `TestLibrary.add_test_instance` (`__init__.py`
lines 670-726).  The missing-identifier check precedes any request; the
alias-only path is explicitly unimplemented; on status 201 the raw
`response.content` is returned. -/
def add_test_instance (base : String) (resp : Response)
    (test_id alias' repository codePath version : String) :
    Except PyErr String × List NetEvent :=
  if test_id = "" ∧ alias' = "" then
    (.error (.exception "test_id needs to be provided for finding the model."), [])
  else if test_id ≠ "" then
    let ev := [NetEvent.post (base ++ "/validationtestscode/?format=json")]
    if respStr resp = "<Response [201]>" then (.ok resp.content, ev)
    else (.error (.exception ("Error in adding test instance. Response = " ++ respStr resp)), ev)
  else
    (.error (.exception "alias is not currently implemented for this feature."), [])

/-- Shallow embedding of `TestLibrary.edit_test_instance` (`__init__.py`
lines 728-786): identifier resolution in priority order, a PUT expecting
status 202, raw `response.content` on success. -/
def edit_test_instance (base : String) (resp : Response)
    (instance_id test_id alias' repository codePath version : String) :
    Except PyErr String × List NetEvent :=
  if instance_id = "" ∧ (test_id = "" ∨ version = "") ∧ (alias' = "" ∨ version = "") then
    (.error (.exception "instance_id or (test_id, version) or (alias, version) needs to be provided for finding a test instance."), [])
  else
    let url :=
      if instance_id ≠ "" then base ++ "/validationtestscode/?id=" ++ instance_id ++ "&format=json"
      else if test_id ≠ "" ∧ version ≠ "" then
        base ++ "/validationtestscode/?test_definition_id=" ++ test_id ++ "&version=" ++ version ++ "&format=json"
      else base ++ "/validationtestscode/?test_alias=" ++ alias' ++ "&version=" ++ version ++ "&format=json"
    let ev := [NetEvent.put url]
    if respStr resp = "<Response [202]>" then (.ok resp.content, ev)
    else (.error (.exception ("Error in editing test instance. Response = " ++ resp.content)), ev)

/-- Shallow embedding of `ModelCatalog.add_model_instance` (`__init__.py`
lines 1452-1506): missing-identifier check before any request;
alias-only path unimplemented; `response.json()` on status 201. -/
def add_model_instance (base : String) (resp : Response)
    (model_id alias' source version parameters : String) :
    Except PyErr JsonVal × List NetEvent :=
  if model_id = "" ∧ alias' = "" then
    (.error (.exception "Model ID needs to be provided for finding the model."), [])
  else if model_id ≠ "" then
    let ev := [NetEvent.post (base ++ "/scientificmodelinstance/?format=json")]
    if respStr resp = "<Response [201]>" then (.ok resp.body, ev)
    else (.error (.exception ("Error in adding model instance. Response = " ++ pyStr resp.body)), ev)
  else
    (.error (.exception "alias is not currently implemented for this feature."), [])

/-- Shallow embedding of `ModelCatalog.edit_model_instance` (`__init__.py`
lines 1508-1567).  The alias fallback URL uses the parameter name
`test_alias`, exactly as in the source. -/
def edit_model_instance (base : String) (resp : Response)
    (instance_id model_id alias' source version parameters : String) :
    Except PyErr JsonVal × List NetEvent :=
  if instance_id = "" ∧ (model_id = "" ∨ version = "") ∧ (alias' = "" ∨ version = "") then
    (.error (.exception "instance_id or (model_id, version) or (alias, version) needs to be provided for finding a model instance."), [])
  else
    let url :=
      if instance_id ≠ "" then base ++ "/scientificmodelinstance/?id=" ++ instance_id ++ "&format=json"
      else if model_id ≠ "" ∧ version ≠ "" then
        base ++ "/scientificmodelinstance/?model_id=" ++ model_id ++ "&version=" ++ version ++ "&format=json"
      else base ++ "/scientificmodelinstance/?test_alias=" ++ alias' ++ "&version=" ++ version ++ "&format=json"
    let ev := [NetEvent.put url]
    if respStr resp = "<Response [202]>" then (.ok resp.body, ev)
    else (.error (.exception ("Error in editing model instance. Response = " ++ pyStr resp.body)), ev)

/-- Shallow embedding of `ModelCatalog.add_model_image` (`__init__.py` lines
1636-1689): missing-identifier check before any request; alias-only path
unimplemented. -/
def add_model_image (base : String) (resp : Response)
    (model_id alias' imageUrl caption : String) :
    Except PyErr JsonVal × List NetEvent :=
  if model_id = "" ∧ alias' = "" then
    (.error (.exception "Model ID needs to be provided for finding the model."), [])
  else if model_id ≠ "" then
    let ev := [NetEvent.post (base ++ "/scientificmodelimage/?format=json")]
    if respStr resp = "<Response [201]>" then (.ok resp.body, ev)
    else (.error (.exception ("Error in adding image. Response = " ++ pyStr resp.body)), ev)
  else
    (.error (.exception "alias is not currently implemented for this feature."), [])

/-- Shallow embedding of `ModelCatalog.edit_model_image` (`__init__.py`
lines 1691-1726): requires `image_id` before any request; PUT expecting
status 202. -/
def edit_model_image (base : String) (resp : Response)
    (image_id imageUrl caption : String) :
    Except PyErr JsonVal × List NetEvent :=
  if image_id = "" then
    (.error (.exception "Image ID needs to be provided for finding the image."), [])
  else
    let ev := [NetEvent.put (base ++ "/scientificmodelimage/?id=" ++ image_id ++ "&format=json")]
    if respStr resp = "<Response [202]>" then (.ok resp.body, ev)
    else (.error (.exception ("Error in adding image. Response = " ++ pyStr resp.body)), ev)

/-- The local file system as seen through `os.path.isfile` plus `json.load`:
maps a path to the parsed content of an existing JSON file, or `none` when
no file exists at that path. -/
def FileSys : Type := String → Option JsonVal

/-- Shallow embedding of `TestLibrary.get_test_definition` (`__init__.py`
lines 189-243).  The status check `str(test_json) != "<Response [200]>"`
sits after both branches, so in the file branch it is applied to the parsed
file content rather than to a response object: the comparison fails for
every parsed value except the JSON string "<Response [200]>", and the
raise itself evaluates `test_json.content`, which a parsed value does not
have (AttributeError); for that one string value, the following `.json()`
call is the attribute that does not exist. -/
def get_test_definition (base : String) (fs : FileSys) (resp : Response)
    (test_path test_id alias' : String) : Except PyErr JsonVal × List NetEvent :=
  if test_path = "" ∧ test_id = "" ∧ alias' = "" then
    (.error (.exception "test_path or test_id or alias needs to be provided for finding a test."), [])
  else if test_path ≠ "" then
    match fs test_path with
    | none => (.error (.exception "Error in local file path specified by test_path."), [])
    | some j =>
        if pyStr j = "<Response [200]>" then (.error (.attributeError "json"), [])
        else (.error (.attributeError "content"), [])
  else
    let url :=
      if test_id ≠ "" then base ++ "/validationtestdef/?id=" ++ test_id ++ "&format=json"
      else base ++ "/validationtestdef/?alias=" ++ alias' ++ "&format=json"
    let ev := [NetEvent.get url]
    if respStr resp ≠ "<Response [200]>" then
      (.error (.exception ("Error in retrieving test. Response = " ++ resp.content)), ev)
    else
      match jsonKey resp.body "tests" with
      | .error e => (.error e, ev)
      | .ok (.arr (t :: _)) => (.ok t, ev)
      | .ok (.arr []) => (.error (.exception "IndexError: list index out of range"), ev)
      | .ok _ => (.error (.exception "TypeError: value is not indexable"), ev)

/-- Shallow embedding of `TestLibrary.get_test_instance` (`__init__.py`
lines 567-622), with the same misplaced status check as
`get_test_definition` in its local-file branch. -/
def get_test_instance (base : String) (fs : FileSys) (resp : Response)
    (instance_path instance_id test_id alias' version : String) :
    Except PyErr JsonVal × List NetEvent :=
  if instance_path = "" ∧ instance_id = "" ∧ (test_id = "" ∨ version = "") ∧
      (alias' = "" ∨ version = "") then
    (.error (.exception "instance_path or instance_id or (test_id, version) or (alias, version) needs to be provided for finding a test instance."), [])
  else if instance_path ≠ "" then
    match fs instance_path with
    | none => (.error (.exception "Error in local file path specified by instance_path."), [])
    | some j =>
        if pyStr j = "<Response [200]>" then (.error (.attributeError "json"), [])
        else (.error (.attributeError "content"), [])
  else
    let url :=
      if instance_id ≠ "" then base ++ "/validationtestscode/?id=" ++ instance_id ++ "&format=json"
      else if test_id ≠ "" ∧ version ≠ "" then
        base ++ "/validationtestscode/?test_definition_id=" ++ test_id ++ "&version=" ++ version ++ "&format=json"
      else base ++ "/validationtestscode/?test_alias=" ++ alias' ++ "&version=" ++ version ++ "&format=json"
    let ev := [NetEvent.get url]
    if respStr resp ≠ "<Response [200]>" then
      (.error (.exception ("Error in retrieving test instance. Response = " ++ resp.content)), ev)
    else
      match jsonKey resp.body "tests" with
      | .error e => (.error e, ev)
      | .ok (.arr (t :: _)) => (.ok t, ev)
      | .ok (.arr []) => (.error (.exception "IndexError: list index out of range"), ev)
      | .ok _ => (.error (.exception "TypeError: value is not indexable"), ev)

/-- Shallow embedding of `TestLibrary.list_test_instances` (`__init__.py`
lines 624-668).  The local branch is guarded by
`if instance_path and os.path.isfile(instance_path)`: a supplied but
non-existing path raises nothing and silently falls through to the network
lookup.  A successfully loaded file still hits the misplaced status check
(`str(...)` of the parsed value, raised without a `.content` access). -/
def list_test_instances (base : String) (fs : FileSys) (resp : Response)
    (instance_path test_id alias' : String) : Except PyErr JsonVal × List NetEvent :=
  if instance_path = "" ∧ test_id = "" ∧ alias' = "" then
    (.error (.exception "instance_path or test_id or alias needs to be provided for finding test instances."), [])
  else
    match (if instance_path ≠ "" then fs instance_path else none) with
    | some j =>
        if pyStr j = "<Response [200]>" then (.error (.attributeError "json"), [])
        else (.error (.exception ("Error in retrieving test instances. Response = " ++ pyStr j)), [])
    | none =>
        let url :=
          if test_id ≠ "" then base ++ "/validationtestscode/?test_definition_id=" ++ test_id ++ "&format=json"
          else base ++ "/validationtestscode/?test_alias=" ++ alias' ++ "&format=json"
        let ev := [NetEvent.get url]
        if respStr resp ≠ "<Response [200]>" then
          (.error (.exception ("Error in retrieving test instances. Response = " ++ respStr resp)), ev)
        else
          match jsonKey resp.body "tests" with
          | .error e => (.error e, ev)
          | .ok ts => (.ok ts, ev)

/-- Shallow embedding of `ModelCatalog.get_model_instance` (`__init__.py`
lines 1352-1405): same fall-through local-path guard as
`list_test_instances`, then a zero-match check on the "instances" list. -/
def get_model_instance (base : String) (fs : FileSys) (resp : Response)
    (instance_path instance_id model_id alias' version : String) :
    Except PyErr JsonVal × List NetEvent :=
  if instance_path = "" ∧ instance_id = "" ∧ (model_id = "" ∨ version = "") ∧
      (alias' = "" ∨ version = "") then
    (.error (.exception "instance_path or instance_id or (model_id, version) or (alias, version) needs to be provided for finding a model instance."), [])
  else
    match (if instance_path ≠ "" then fs instance_path else none) with
    | some j =>
        if pyStr j = "<Response [200]>" then (.error (.attributeError "json"), [])
        else (.error (.exception ("Error in retrieving model instance. Response = " ++ pyStr j)), [])
    | none =>
        let url :=
          if instance_id ≠ "" then base ++ "/scientificmodelinstance/?id=" ++ instance_id ++ "&format=json"
          else if model_id ≠ "" ∧ version ≠ "" then
            base ++ "/scientificmodelinstance/?model_id=" ++ model_id ++ "&version=" ++ version ++ "&format=json"
          else base ++ "/scientificmodelinstance/?model_alias=" ++ alias' ++ "&version=" ++ version ++ "&format=json"
        let ev := [NetEvent.get url]
        if respStr resp ≠ "<Response [200]>" then
          (.error (.exception ("Error in retrieving model instance. Response = " ++ respStr resp)), ev)
        else
          match jsonKey resp.body "instances" with
          | .error e => (.error e, ev)
          | .ok (.arr []) => (.error (.exception "There is no model instance with these specifications."), ev)
          | .ok (.arr (x :: _)) => (.ok x, ev)
          | .ok _ => (.error (.exception "TypeError: len() of unsized value"), ev)

/-- Shallow embedding of `ModelCatalog.list_model_instances` (`__init__.py`
lines 1407-1450): same fall-through local-path guard. -/
def list_model_instances (base : String) (fs : FileSys) (resp : Response)
    (instance_path model_id alias' : String) : Except PyErr JsonVal × List NetEvent :=
  if instance_path = "" ∧ model_id = "" ∧ alias' = "" then
    (.error (.exception "instance_path or model_id or alias needs to be provided for finding model instances."), [])
  else
    match (if instance_path ≠ "" then fs instance_path else none) with
    | some j =>
        if pyStr j = "<Response [200]>" then (.error (.attributeError "json"), [])
        else (.error (.exception ("Error in retrieving model instances. Response = " ++ pyStr j)), [])
    | none =>
        let url :=
          if model_id ≠ "" then base ++ "/scientificmodelinstance/?model_id=" ++ model_id ++ "&format=json"
          else base ++ "/scientificmodelinstance/?model_alias=" ++ alias' ++ "&format=json"
        let ev := [NetEvent.get url]
        if respStr resp ≠ "<Response [200]>" then
          (.error (.exception ("Error in retrieving model instances. Response = " ++ respStr resp)), ev)
        else
          match jsonKey resp.body "instances" with
          | .error e => (.error e, ev)
          | .ok xs => (.ok xs, ev)

/-- Python dict `.pop(key)` on a parsed JSON object: removes the (unique)
entry for the key, raising `KeyError` when it is absent. -/
def popKey : List (String × JsonVal) → String → Except PyErr (List (String × JsonVal))
  | [], k => .error (.keyError k)
  | (k', v) :: rest, k =>
      if k' = k then .ok rest
      else
        match popKey rest k with
        | .error e => .error e
        | .ok l => .ok ((k', v) :: l)

/-- Shallow embedding of `ModelCatalog.get_model` (`__init__.py` lines
1042-1090): identifier check, GET, status check, zero-match check, then the
optional in-place `.pop` of the "instances" and "images" fields of the
first returned record, which is returned. -/
def get_model (base : String) (resp : Response) (model_id alias' : String)
    (instances images : Bool) : Except PyErr JsonVal × List NetEvent :=
  if model_id = "" ∧ alias' = "" then
    (.error (.exception "Model ID or alias needs to be provided for finding a model."), [])
  else
    let url :=
      if model_id ≠ "" then base ++ "/scientificmodel/?id=" ++ model_id ++ "&format=json"
      else base ++ "/scientificmodel/?alias=" ++ alias' ++ "&format=json"
    let ev := [NetEvent.get url]
    if respStr resp ≠ "<Response [200]>" then
      (.error (.exception ("Error in retrieving model. Response = " ++ respStr resp)), ev)
    else
      match jsonKey resp.body "models" with
      | .error e => (.error e, ev)
      | .ok (.arr []) =>
          (.error (.exception ("Error in retrieving model. Possibly invalid model_id or alias. Response = " ++ pyStr resp.body)), ev)
      | .ok (.arr (m0 :: _)) =>
          let step1 : Except PyErr JsonVal :=
            if instances = false then
              match m0 with
              | .obj fs0 =>
                  match popKey fs0 "instances" with
                  | .error e => .error e
                  | .ok l => .ok (.obj l)
              | _ => .error (.attributeError "pop")
            else .ok m0
          match step1 with
          | .error e => (.error e, ev)
          | .ok m1 =>
              let step2 : Except PyErr JsonVal :=
                if images = false then
                  match m1 with
                  | .obj fs1 =>
                      match popKey fs1 "images" with
                      | .error e => .error e
                      | .ok l => .ok (.obj l)
                  | _ => .error (.attributeError "pop")
                else .ok m1
              match step2 with
              | .error e => (.error e, ev)
              | .ok m2 => (.ok m2, ev)
      | .ok _ => (.error (.exception "TypeError: len() of unsized value"), ev)

/-- The final step (step 8) of the login protocol in `BaseClient._hbp_auth`
(`__init__.py` lines 123-138), as a function of the credential POST's
status, terminal redirected URL, and parsed JSON body: require status 200,
require the terminal URL to be `<base>/config.json` and extract the token
at `auth.token.access_token`; otherwise classify the terminal URL by the
substring "error".  Only the `.ok` outcome stores a token. -/
def hbp_auth_final (base : String) (status : Nat) (finalUrl : String) (body : JsonVal) :
    Except PyErr JsonVal :=
  if status = 200 then
    if finalUrl = base ++ "/config.json" then
      match jsonKey body "auth" with
      | .error e => .error e
      | .ok a =>
          match jsonKey a "token" with
          | .error e => .error e
          | .ok t => jsonKey t "access_token"
    else if strContains finalUrl "error" then
      .error (.exception ("Authentication Failure: No token retrieved." ++ finalUrl))
    else
      .error (.exception ("Unhandled error in Authentication." ++ finalUrl))
  else .error (.exception "Communication error")

/-- Outcome of the probe's `urlopen(test_address, timeout=1)` attempt:
success, a connection failure (`URLError`), or a timeout
(`socket.timeout`). -/
inductive ProbeOutcome where
  | connected
  | connectionFailed
  | timedOut
  deriving Repr, DecidableEq

/-- The fixed well-known external probe address of
`_have_internet_connection`. -/
def probeAddress : String := "http://74.125.113.99"

/-- Shallow embedding of `_have_internet_connection` (`__init__.py` lines
1729-1741): attempt a connection to the fixed address with a 1-second
timeout; `URLError` and `socket.timeout` are caught and yield `False`;
success yields `True`. -/
def have_internet_connection (attempt : String → Nat → ProbeOutcome) : Bool :=
  match attempt probeAddress 1 with
  | .connected => true
  | .connectionFailed => false
  | .timedOut => false

/-- The local-environment readings of `platform.*` consumed by
`_get_platform`. -/
structure PlatformEnv where
  network_name : String
  architecture_bits : String
  architecture_linkage : String
  machine : String
  processor : String
  release : String
  system_name : String
  version : String

/-- The record returned by `_get_platform`. -/
structure PlatformInfo where
  architecture_bits : String
  architecture_linkage : String
  machine : String
  network_name : String
  ip_addr : String
  processor : String
  release : String
  system_name : String
  version : String

/-- Shallow embedding of `BaseClient._get_platform` (`__init__.py` lines
974-997).  `resolve` models `socket.gethostbyname`, with `none` standing
for a raised `socket.gaierror`; the hostname is resolved only when the
connectivity probe succeeds, and the loopback address is reported
otherwise. -/
def get_platform (env : PlatformEnv) (attempt : String → Nat → ProbeOutcome)
    (resolve : String → Option String) : PlatformInfo :=
  let ip :=
    if have_internet_connection attempt then
      match resolve env.network_name with
      | some a => a
      | none => "127.0.0.1"
    else "127.0.0.1"
  { architecture_bits := env.architecture_bits
    architecture_linkage := env.architecture_linkage
    machine := env.machine
    network_name := env.network_name
    ip_addr := ip
    processor := env.processor
    release := env.release
    system_name := env.system_name
    version := env.version }

/-- A concrete option map of the shape returned by the option-enumeration
endpoint, used to instantiate the general theorems. -/
def opts0 : OptionMap :=
  [("species", ["Mouse (Mus musculus)"]), ("brain_region", ["Hippocampus"]),
   ("cell_type", ["Other"]), ("data_modalities", ["electron microscopy"]),
   ("data_modality", ["electron microscopy"]),
   ("test_type", ["network structure"]), ("score_type", ["Other"]),
   ("model_type", ["Single Cell"]), ("organization", ["HBP-SP6"])]

/-- A concrete option map holding the key "data_modalities" (consulted by the
membership check) but not the key "data_modality" (consulted by the error
message), the shape assumed by the membership check itself. -/
def optsNoDM : OptionMap :=
  [("species", ["Mouse (Mus musculus)"]), ("brain_region", ["Hippocampus"]),
   ("cell_type", ["Other"]), ("data_modalities", ["electron microscopy"]),
   ("test_type", ["network structure"]), ("score_type", ["Other"])]

/-- A concrete file system with two existing JSON files (a test definition
and a test instance) and nothing else. -/
def fsC4 : FileSys := fun p =>
  if p = "dummy_test.json" then some (.obj [("tests", .arr [.obj [("id", .str "t1")]])])
  else if p = "dummy_instance.json" then some (.obj [("tests", .arr [.obj [("id", .str "i1")]])])
  else none

/-- A concrete 200 response whose body carries an empty "tests" list. -/
def respTests200 : Response := ⟨200, "", .obj [("tests", .arr [])]⟩

/-- A concrete 200 response whose body carries one "instances" record. -/
def respInst200 : Response := ⟨200, "", .obj [("instances", .arr [.obj [("id", .str "i1")]])]⟩

/-- A concrete create-success response (status 201). -/
def resp201 : Response := ⟨201, "created", .obj [("uuid", .str "u-new")]⟩

/-- A concrete edit-success response (status 202). -/
def resp202 : Response := ⟨202, "edited", .obj [("uuid", .str "u-edit")]⟩

/-- The model object attached to a score, as the registration code sees it:
an optional `id` attribute (probed by `hasattr(score.model, 'id')`) and an
optional `instance_id` attribute (read by `score.model.instance_id`);
`none` models an absent attribute, whose read raises `AttributeError`. -/
structure SModel where
  id : Option String
  instance_id : Option String
  deriving Repr, DecidableEq

/-- A `sciunit.Score`-like result as consumed by `register_result` and the
orchestrator: the model object, the test instance id carried by
`test_result.test.id`, the numeric score, and the entries of
`related_data` that the source reads ("figures", "passed", "project"),
each `none` when the key is absent from the dict. -/
structure ScoreObj where
  model : SModel
  testId : String
  score : ℚ
  figures : Option (List String)
  passed : Option Bool
  project : Option String
  deriving Repr, DecidableEq

/-- Modelled from the spec: the storage-backend state of §4.4 (the
`datastores` module the source imports is not among the sources): an
`authorized` flag flipped by `authorize`, a mutable target-collaboration
id, and a base folder; `upload_data` is supplied as a function parameter
where needed. -/
structure DataStore where
  authorized : Bool
  collab_id : Option String
  base_folder : String
  deriving Repr, DecidableEq

/-- The `result_json` record assembled by `register_result`, with the score
used for both the raw and the normalized score fields. -/
structure ResultRecord where
  model_version_id : String
  test_code_id : String
  results_storage : String
  score : ℚ
  passed : Option Bool
  platformStr : String
  project : String
  normalized_score : ℚ
  deriving Repr, DecidableEq

/-- Observable outcome of `register_result`: the Python result (it returns
`None`), the service requests issued, the lines printed, and the payload
list handed to the result POST. -/
structure RROut where
  result : Except PyErr Unit
  events : List NetEvent
  prints : List String
  posted : List ResultRecord

/-- Shallow embedding of `TestLibrary.register_result` (`__init__.py` lines
904-972).  With a data store: authorize it if needed, fall into a
`NameError` on the undefined global `project` when its collab id is unset,
and upload the figures from `related_data` (KeyError when absent).
Assemble `result_json` — reading `test_result.model.id` (AttributeError
when absent) and `related_data["project"]` (KeyError when absent) — then
POST it as a single-element list and unconditionally print the response
content as the registered UUID; no status check is performed.
`platformStr` is the stringified `_get_platform()` record. -/
def register_result (base : String) (postResp : Response) (platformStr : String)
    (uploadResult : List String → String) (data_store : Option DataStore)
    (tr : ScoreObj) : RROut :=
  let storageStep : Except PyErr String :=
    match data_store with
    | none => .ok ""
    | some ds =>
        match ds.collab_id with
        | none => .error (.exception "NameError: name 'project' is not defined")
        | some _ =>
            match tr.figures with
            | none => .error (.keyError "figures")
            | some figs => .ok (uploadResult figs)
  match storageStep with
  | .error e => ⟨.error e, [], [], []⟩
  | .ok results_storage =>
      match tr.model.id with
      | none => ⟨.error (.attributeError "id"), [], [], []⟩
      | some mid =>
          match tr.project with
          | none => ⟨.error (.keyError "project"), [], [], []⟩
          | some proj =>
              let record : ResultRecord :=
                ⟨mid, tr.testId, results_storage, tr.score, tr.passed, platformStr, proj, tr.score⟩
              let url := base ++ "/validationmodelresultrest2/?format=json"
              ⟨.ok (), [.post url], ["Result Registered!, UUID = " ++ postResp.content], [record]⟩

/-- The metadata dict accepted by `utils.run_test` for auto-registering an
uncataloged model, typed with the keys the source reads; `instances` is
the record list forwarded to `register_model` and indexed at position 0
for the follow-up version lookup. -/
structure ModelMetadata where
  app_id : String
  author : String
  organization : String
  privacy : Bool
  cell_type : String
  model_type : String
  brain_region : String
  species : String
  description : String
  instances : List (List (String × JsonVal))

/-- Observable outcome of the registration block of `utils.run_test`. -/
structure RunRegOut where
  result : Except PyErr Unit
  events : List NetEvent
  prints : List String

/-- The unconditional tail of `utils.run_test`'s registration block
(`utils.py` lines 184-202), which the source reaches in every branch of
the preceding conditional: read `score.model.instance_id` (AttributeError
for a stub model without it), fetch the model instance and its hosting
model, default the storage collab id to the model's host collab (also
setting `related_data["project"]` in that case only), build the
timestamped storage folder `<name>_<timestamp>`, construct the collab data
store, and hand the score to `register_result`. -/
def run_reg_phase2 (base : String) (fs : FileSys) (instResp modelResp postResp : Response)
    (platformStr now : String) (uploadResult : List String → String)
    (tr : ScoreObj) (storage_collab_id : String) : RunRegOut :=
  match tr.model.instance_id with
  | none => ⟨.error (.attributeError "instance_id"), [], []⟩
  | some iid =>
      match get_model_instance base fs instResp "" iid "" "" "" with
      | (.error e, evi) => ⟨.error e, evi, []⟩
      | (.ok instJson, evi) =>
          match jsonKeyStr instJson "model_id" with
          | .error e => ⟨.error e, evi, []⟩
          | .ok mid =>
              match get_model base modelResp mid "" true true with
              | (.error e, evm) => ⟨.error e, evi ++ evm, []⟩
              | (.ok modelJson, evm) =>
                  match jsonKey modelJson "app" with
                  | .error e => ⟨.error e, evi ++ evm, []⟩
                  | .ok appJson =>
                      match jsonKeyStr appJson "collab_id" with
                      | .error e => ⟨.error e, evi ++ evm, []⟩
                      | .ok hostCollab =>
                          match jsonKeyStr modelJson "name" with
                          | .error e => ⟨.error e, evi ++ evm, []⟩
                          | .ok modelName =>
                              let storageId :=
                                if storage_collab_id = "" then hostCollab else storage_collab_id
                              let tr' :=
                                if storage_collab_id = "" then { tr with project := some storageId }
                                else tr
                              let store : DataStore := ⟨false, some storageId, modelName ++ "_" ++ now⟩
                              let rr := register_result base postResp platformStr uploadResult (some store) tr'
                              ⟨rr.result, evi ++ evm ++ rr.events, rr.prints⟩

/-- The registration block of `utils.run_test` (`utils.py` lines 162-202),
entered when `register_result=True` after the test has been scored: the
`ModelCatalog(hbp_username)` construction performs the login protocol
(`login` event); then, when the model has no `id` attribute and no
metadata was supplied, the not-saved message is printed — and, the source
having no early return, execution falls through into the unconditional
registration tail; with metadata supplied the model is first registered
and its fresh instance id attached to `score.model.instance_id`.
`modelRepr` is the printed form of the model object; the `Response`
parameters are the servers' replies to the respective calls. -/
def run_test_register (base : String) (fs : FileSys) (opts : OptionMap)
    (registerModelResp instResp1 instResp2 modelResp postResp : Response)
    (platformStr now modelRepr : String) (uploadResult : List String → String)
    (tr : ScoreObj) (storage_collab_id : String)
    (model_metadata : Option ModelMetadata) : RunRegOut :=
  let evLogin := [NetEvent.login]
  match tr.model.id, model_metadata with
  | none, none =>
      let msg := "Model = " ++ modelRepr ++ " => Results NOT saved on validation framework: no model.instance_id or model_metadata provided!"
      let out := run_reg_phase2 base fs instResp2 modelResp postResp platformStr now uploadResult tr storage_collab_id
      ⟨out.result, evLogin ++ out.events, msg :: out.prints⟩
  | none, some md =>
      match register_model base opts registerModelResp md.app_id md.privacy
          md.cell_type md.model_type md.brain_region md.species md.organization with
      | (.error e, ev) => ⟨.error e, evLogin ++ ev, []⟩
      | (.ok modelIdJson, ev) =>
          match jsonKeyStr modelIdJson "uuid" with
          | .error e => ⟨.error e, evLogin ++ ev, []⟩
          | .ok uuid =>
              match md.instances with
              | [] => ⟨.error (.exception "IndexError: list index out of range"), evLogin ++ ev, []⟩
              | inst0 :: _ =>
                  match alookup inst0 "version" with
                  | none => ⟨.error (.keyError "version"), evLogin ++ ev, []⟩
                  | some (.str ver) =>
                      match get_model_instance base fs instResp1 "" "" uuid "" ver with
                      | (.error e, evi) => ⟨.error e, evLogin ++ ev ++ evi, []⟩
                      | (.ok instJson, evi) =>
                          match jsonKeyStr instJson "id" with
                          | .error e => ⟨.error e, evLogin ++ ev ++ evi, []⟩
                          | .ok iid =>
                              let tr' := { tr with model := { tr.model with instance_id := some iid } }
                              let out := run_reg_phase2 base fs instResp2 modelResp postResp platformStr now uploadResult tr' storage_collab_id
                              ⟨out.result, evLogin ++ ev ++ evi ++ out.events, out.prints⟩
                  | some _ =>
                      ⟨.error (.exception "TypeError: cannot concatenate str and non-str"), evLogin ++ ev, []⟩
  | some _, _ =>
      let out := run_reg_phase2 base fs instResp2 modelResp postResp platformStr now uploadResult tr storage_collab_id
      ⟨out.result, evLogin ++ out.events, out.prints⟩

lemma coerceValue_int_five : coerceValue "5" = .ok (.intVal 5) := rfl

lemma coerceValue_float_twofive : coerceValue "2.5" = .ok (.floatVal (5/2)) := by
  have h : coerceValue "2.5" =
      .ok (.floatVal ((digitsVal ['2'] : ℚ) + (digitsVal ['5'] : ℚ) / 10 ^ 1)) := rfl
  have d2 : digitsVal ['2'] = 2 := by decide
  have d5 : digitsVal ['5'] = 5 := by decide
  rw [h, d2, d5]; norm_num

lemma coerceValue_quantity_mV : coerceValue "-65 mV" = .ok (.quantity (-65) "mV") := by
  have h : coerceValue "-65 mV" =
      .ok (.quantity (-(digitsVal ['6', '5'] : ℚ)) "mV") := rfl
  have d : digitsVal ['6', '5'] = 65 := by decide
  rw [h, d]; norm_num

/-- C1: the observation-data coercion performed by `get_validation_test` maps,
for every key/value pair, the string "5" to the integer 5, the string "2.5"
to the float 2.5, and the string "-65 mV" to a quantity with magnitude -65
and unit "mV" (integer parse attempted first, then float parse, then
magnitude/unit split), and a mapping whose first value is a structured
record is passed through unchanged, short-circuiting per-key coercion. -/
theorem C1_observation_coercion (k1 k2 k3 k : String) (m : List (String × String))
    (rest : List (String × ObsVal)) :
    coerce_observations [(k1, .s "5"), (k2, .s "2.5"), (k3, .s "-65 mV")] =
      .ok (.inr [(k1, .intVal 5), (k2, .floatVal (5/2)), (k3, .quantity (-65) "mV")]) ∧
    coerceValue "5" = .ok (.intVal 5) ∧
    coerceValue "2.5" = .ok (.floatVal (5/2)) ∧
    coerceValue "-65 mV" = .ok (.quantity (-65) "mV") ∧
    coerce_observations ((k, .d m) :: rest) = .ok (.inl ((k, .d m) :: rest)) := by
  refine ⟨?_, coerceValue_int_five, coerceValue_float_twofive, coerceValue_quantity_mV, rfl⟩
  simp [coerce_observations, coerceAll, coerceValue_int_five, coerceValue_float_twofive,
    coerceValue_quantity_mV]

/-- C2 (amended): for every enumerated-field value outside the
server-provided option set, `add_test` and `register_model` fail with the
descriptive invalid-value error after the option-set GET that validation
itself requires, but before the create POST (which is never issued); for
values all inside the option sets the create POST is issued.  The
hypotheses say which option lists the server's option map carries. -/
theorem C2_enum_validation_before_create (base app_id : String) (opts : OptionMap)
    (resp : Response) (privacy : Bool)
    (species brain_region cell_type data_modality test_type score_type : String)
    (model_type organization : String)
    (spl brl ctl dml dmml ttl stl mtl orgl : List String)
    (hsp : alookup opts "species" = some spl)
    (hbr : alookup opts "brain_region" = some brl)
    (hct : alookup opts "cell_type" = some ctl)
    (hdm : alookup opts "data_modalities" = some dml)
    (hdmm : alookup opts "data_modality" = some dmml)
    (htt : alookup opts "test_type" = some ttl)
    (hst : alookup opts "score_type" = some stl)
    (hmt : alookup opts "model_type" = some mtl)
    (horg : alookup opts "organization" = some orgl) :
    (species ∉ spl →
      add_test base opts resp species brain_region cell_type data_modality test_type score_type =
        (.error (.exception ("species = '" ++ species ++ "' is invalid.\nValue has to be one of these: " ++ pyStrList spl)),
         [.get (optionsUrl base)])) ∧
    (species ∈ spl → brain_region ∉ brl →
      add_test base opts resp species brain_region cell_type data_modality test_type score_type =
        (.error (.exception ("brain_region = '" ++ brain_region ++ "' is invalid.\nValue has to be one of these: " ++ pyStrList brl)),
         [.get (optionsUrl base)])) ∧
    (species ∈ spl → brain_region ∈ brl → cell_type ∉ ctl →
      add_test base opts resp species brain_region cell_type data_modality test_type score_type =
        (.error (.exception ("cell_type = '" ++ cell_type ++ "' is invalid.\nValue has to be one of these: " ++ pyStrList ctl)),
         [.get (optionsUrl base)])) ∧
    (species ∈ spl → brain_region ∈ brl → cell_type ∈ ctl → data_modality ∉ dml →
      add_test base opts resp species brain_region cell_type data_modality test_type score_type =
        (.error (.exception ("data_modality = '" ++ data_modality ++ "' is invalid.\nValue has to be one of these: " ++ pyStrList dmml)),
         [.get (optionsUrl base)])) ∧
    (species ∈ spl → brain_region ∈ brl → cell_type ∈ ctl → data_modality ∈ dml →
     test_type ∉ ttl →
      add_test base opts resp species brain_region cell_type data_modality test_type score_type =
        (.error (.exception ("test_type = '" ++ test_type ++ "' is invalid.\nValue has to be one of these: " ++ pyStrList ttl)),
         [.get (optionsUrl base)])) ∧
    (species ∈ spl → brain_region ∈ brl → cell_type ∈ ctl → data_modality ∈ dml →
     test_type ∈ ttl → score_type ∉ stl →
      add_test base opts resp species brain_region cell_type data_modality test_type score_type =
        (.error (.exception ("score_type = '" ++ score_type ++ "' is invalid.\nValue has to be one of these: " ++ pyStrList stl)),
         [.get (optionsUrl base)])) ∧
    (species ∈ spl → brain_region ∈ brl → cell_type ∈ ctl → data_modality ∈ dml →
     test_type ∈ ttl → score_type ∈ stl →
      (add_test base opts resp species brain_region cell_type data_modality test_type score_type).2 =
        [.get (optionsUrl base), .post (testDefUrl base)]) ∧
    (cell_type ∉ ctl →
      register_model base opts resp app_id privacy cell_type model_type brain_region species organization =
        (.error (.exception ("cell_type = '" ++ cell_type ++ "' is invalid.\nValue has to be one of these: " ++ pyStrList ctl)),
         [.get (optionsUrl base)])) ∧
    (cell_type ∈ ctl → model_type ∉ mtl →
      register_model base opts resp app_id privacy cell_type model_type brain_region species organization =
        (.error (.exception ("model_type = '" ++ model_type ++ "' is invalid.\nValue has to be one of these: " ++ pyStrList mtl)),
         [.get (optionsUrl base)])) ∧
    (cell_type ∈ ctl → model_type ∈ mtl → brain_region ∉ brl →
      register_model base opts resp app_id privacy cell_type model_type brain_region species organization =
        (.error (.exception ("brain_region = '" ++ brain_region ++ "' is invalid.\nValue has to be one of these: " ++ pyStrList brl)),
         [.get (optionsUrl base)])) ∧
    (cell_type ∈ ctl → model_type ∈ mtl → brain_region ∈ brl → species ∉ spl →
      register_model base opts resp app_id privacy cell_type model_type brain_region species organization =
        (.error (.exception ("species = '" ++ species ++ "' is invalid.\nValue has to be one of these: " ++ pyStrList spl)),
         [.get (optionsUrl base)])) ∧
    (cell_type ∈ ctl → model_type ∈ mtl → brain_region ∈ brl → species ∈ spl →
     organization ∉ orgl →
      register_model base opts resp app_id privacy cell_type model_type brain_region species organization =
        (.error (.exception ("organization = '" ++ organization ++ "' is invalid.\nValue has to be one of these: " ++ pyStrList (orgl ++ [""]))),
         [.get (optionsUrl base)])) ∧
    (cell_type ∈ ctl → model_type ∈ mtl → brain_region ∈ brl → species ∈ spl →
     organization ∈ orgl →
      (register_model base opts resp app_id privacy cell_type model_type brain_region species organization).2 =
        [.get (optionsUrl base), .post (base ++ "/scientificmodel/?app_id=" ++ app_id ++ "&format=json")]) := by
  refine ⟨?_, ?_, ?_, ?_, ?_, ?_, ?_, ?_, ?_, ?_, ?_, ?_, ?_⟩
  · intro h
    simp [add_test, validateTestFields, hsp, h]
  · intro h1 h
    simp [add_test, validateTestFields, hsp, hbr, h1, h]
  · intro h1 h2 h
    simp [add_test, validateTestFields, hsp, hbr, hct, h1, h2, h]
  · intro h1 h2 h3 h
    simp [add_test, validateTestFields, hsp, hbr, hct, hdm, hdmm, h1, h2, h3, h]
  · intro h1 h2 h3 h4 h
    simp [add_test, validateTestFields, hsp, hbr, hct, hdm, htt, h1, h2, h3, h4, h]
  · intro h1 h2 h3 h4 h5 h
    simp [add_test, validateTestFields, hsp, hbr, hct, hdm, htt, hst, h1, h2, h3, h4, h5, h]
  · intro h1 h2 h3 h4 h5 h6
    simp only [add_test, validateTestFields, hsp, hbr, hct, hdm, htt, hst,
      h1, h2, h3, h4, h5, h6, not_true_eq_false, ite_false, if_neg, not_false_eq_true]
    split <;> rfl
  · intro h
    simp [register_model, validateModelFields, hct, h]
  · intro h1 h
    simp [register_model, validateModelFields, hct, hmt, h1, h]
  · intro h1 h2 h
    simp [register_model, validateModelFields, hct, hmt, hbr, h1, h2, h]
  · intro h1 h2 h3 h
    simp [register_model, validateModelFields, hct, hmt, hbr, hsp, h1, h2, h3, h]
  · intro h1 h2 h3 h4 h
    simp [register_model, validateModelFields, hct, hmt, hbr, hsp, horg, h1, h2, h3, h4, h]
  · intro h1 h2 h3 h4 h5
    simp only [register_model, validateModelFields, hct, hmt, hbr, hsp, horg,
      h1, h2, h3, h4, h5, not_true_eq_false, ite_false, if_neg, not_false_eq_true]
    split <;> rfl

/-- C2, counterexample to the claim as stated: a call with an invalid
species is rejected only after the option-set GET has been issued — the
request trace of the failed call is not empty, so the failure does not
precede every network request. -/
theorem C2_enum_validation_counterexample :
    add_test VALIDATION_FRAMEWORK_URL opts0 resp201 "Dragon" "Hippocampus" "Other"
        "electron microscopy" "network structure" "Other" =
      (.error (.exception ("species = 'Dragon' is invalid.\nValue has to be one of these: " ++ pyStrList ["Mouse (Mus musculus)"])),
       [.get (optionsUrl VALIDATION_FRAMEWORK_URL)]) ∧
    [NetEvent.get (optionsUrl VALIDATION_FRAMEWORK_URL)] ≠ ([] : List NetEvent) :=
  ⟨rfl, by simp⟩

/-- C2, witness: the all-valid instantiation issues the options GET followed
by the create POST. -/
theorem C2_enum_validation_before_create_witness :
    (add_test VALIDATION_FRAMEWORK_URL opts0 resp201 "Mouse (Mus musculus)" "Hippocampus" "Other"
        "electron microscopy" "network structure" "Other").2 =
      [.get (optionsUrl VALIDATION_FRAMEWORK_URL), .post (testDefUrl VALIDATION_FRAMEWORK_URL)] :=
  (C2_enum_validation_before_create VALIDATION_FRAMEWORK_URL "app" opts0 resp201 false
      "Mouse (Mus musculus)" "Hippocampus" "Other" "electron microscopy" "network structure"
      "Other" "Single Cell" "HBP-SP6" _ _ _ _ _ _ _ _ _
      rfl rfl rfl rfl rfl rfl rfl rfl rfl).2.2.2.2.2.2.1
    (by decide) (by decide) (by decide) (by decide) (by decide) (by decide)

/-- C3 (amended): the six instance- and image-level add/edit operations
raise their descriptive missing-identifier error before any network call
when invoked with none of their accepted identifiers; `edit_test`,
`edit_model` and `register_model`, by contrast, perform no identifier
check — invoked with an empty `test_id` / `model_id` / `app_id` and
otherwise valid enumerated fields they proceed to issue the option-set GET
and the edit PUT (resp. create POST). -/
theorem C3_missing_identifier_checks (base app_id : String) (resp : Response)
    (opts : OptionMap) (privacy : Bool)
    (repository codePath version source parameters imageUrl caption : String)
    (species brain_region cell_type data_modality test_type score_type : String)
    (model_type organization : String)
    (spl brl ctl dml ttl stl mtl orgl : List String)
    (hsp : alookup opts "species" = some spl)
    (hbr : alookup opts "brain_region" = some brl)
    (hct : alookup opts "cell_type" = some ctl)
    (hdm : alookup opts "data_modalities" = some dml)
    (htt : alookup opts "test_type" = some ttl)
    (hst : alookup opts "score_type" = some stl)
    (hmt : alookup opts "model_type" = some mtl)
    (horg : alookup opts "organization" = some orgl)
    (h1 : species ∈ spl) (h2 : brain_region ∈ brl) (h3 : cell_type ∈ ctl)
    (h4 : data_modality ∈ dml) (h5 : test_type ∈ ttl) (h6 : score_type ∈ stl)
    (m1 : cell_type ∈ ctl) (m2 : model_type ∈ mtl) (m3 : brain_region ∈ brl)
    (m4 : species ∈ spl) (m5 : organization ∈ orgl) :
    add_test_instance base resp "" "" repository codePath version =
      (.error (.exception "test_id needs to be provided for finding the model."), []) ∧
    edit_test_instance base resp "" "" "" repository codePath version =
      (.error (.exception "instance_id or (test_id, version) or (alias, version) needs to be provided for finding a test instance."), []) ∧
    add_model_instance base resp "" "" source version parameters =
      (.error (.exception "Model ID needs to be provided for finding the model."), []) ∧
    edit_model_instance base resp "" "" "" source version parameters =
      (.error (.exception "instance_id or (model_id, version) or (alias, version) needs to be provided for finding a model instance."), []) ∧
    add_model_image base resp "" "" imageUrl caption =
      (.error (.exception "Model ID needs to be provided for finding the model."), []) ∧
    edit_model_image base resp "" imageUrl caption =
      (.error (.exception "Image ID needs to be provided for finding the image."), []) ∧
    (edit_test base opts resp "" species brain_region cell_type data_modality test_type score_type).2 =
      [.get (optionsUrl base), .put (testDefUrl base)] ∧
    (edit_model base opts resp "" app_id privacy cell_type model_type brain_region species).2 =
      [.get (optionsUrl base), .put (base ++ "/scientificmodel/?app_id=" ++ app_id ++ "&format=json")] ∧
    (register_model base opts resp "" privacy cell_type model_type brain_region species organization).2 =
      [.get (optionsUrl base), .post (base ++ "/scientificmodel/?app_id=" ++ "" ++ "&format=json")] := by
  refine ⟨rfl, rfl, rfl, rfl, rfl, rfl, ?_, ?_, ?_⟩
  · simp only [edit_test, validateTestFields, hsp, hbr, hct, hdm, htt, hst,
      h1, h2, h3, h4, h5, h6, not_true_eq_false, ite_false, if_neg, not_false_eq_true]
    split <;> rfl
  · simp only [edit_model, validateModelFields, hct, hmt, hbr, hsp,
      m1, m2, m3, m4, not_true_eq_false, ite_false, if_neg, not_false_eq_true]
    split <;> rfl
  · simp only [register_model, validateModelFields, hct, hmt, hbr, hsp, horg,
      m1, m2, m3, m4, m5, not_true_eq_false, ite_false, if_neg, not_false_eq_true]
    split <;> rfl

/-- C3, counterexample to the claim as stated: `edit_test` invoked with an
empty `test_id` (its only accepted resolving identifier) raises no
missing-identifier error and issues two network requests — the option-set
GET followed by the edit PUT. -/
theorem C3_missing_identifier_counterexample :
    edit_test VALIDATION_FRAMEWORK_URL opts0 resp202 "" "Mouse (Mus musculus)" "Hippocampus"
        "Other" "electron microscopy" "network structure" "Other" =
      (.ok (.obj [("uuid", .str "u-edit")]),
       [.get (optionsUrl VALIDATION_FRAMEWORK_URL), .put (testDefUrl VALIDATION_FRAMEWORK_URL)]) ∧
    [NetEvent.get (optionsUrl VALIDATION_FRAMEWORK_URL), .put (testDefUrl VALIDATION_FRAMEWORK_URL)] ≠
      ([] : List NetEvent) :=
  ⟨rfl, by simp⟩

/-- C3, witness: concrete instantiation of the missing-identifier theorem. -/
theorem C3_missing_identifier_checks_witness :
    add_test_instance VALIDATION_FRAMEWORK_URL resp201 "" "" "r" "p" "1.0" =
      (.error (.exception "test_id needs to be provided for finding the model."), []) ∧
    (edit_model VALIDATION_FRAMEWORK_URL opts0 resp202 "" "app" false "Other" "Single Cell"
        "Hippocampus" "Mouse (Mus musculus)").2 =
      [.get (optionsUrl VALIDATION_FRAMEWORK_URL),
       .put (VALIDATION_FRAMEWORK_URL ++ "/scientificmodel/?app_id=" ++ "app" ++ "&format=json")] := by
  have h := C3_missing_identifier_checks VALIDATION_FRAMEWORK_URL "app" resp201 opts0 false
      "r" "p" "1.0" "s" "par" "iu" "cap"
      "Mouse (Mus musculus)" "Hippocampus" "Other" "electron microscopy" "network structure"
      "Other" "Single Cell" "HBP-SP6" _ _ _ _ _ _ _ _
      rfl rfl rfl rfl rfl rfl rfl rfl
      (by decide) (by decide) (by decide) (by decide) (by decide) (by decide)
      (by decide) (by decide) (by decide) (by decide) (by decide)
  refine ⟨h.1, ?_⟩
  have h8 := h.2.2.2.2.2.2.2.1
  exact h8

/-- C10: for every option map carrying the key "data_modalities" but not the
key "data_modality", calling `add_test` or `edit_test` with a
`data_modality` outside the allowed list does not produce the descriptive
invalid-value error: building the error message subscripts the absent key
"data_modality", so the error branch itself raises `KeyError`. -/
theorem C10_data_modality_keyerror (base test_id : String) (opts : OptionMap) (resp : Response)
    (species brain_region cell_type data_modality test_type score_type : String)
    (spl brl ctl dml : List String)
    (hsp : alookup opts "species" = some spl)
    (hbr : alookup opts "brain_region" = some brl)
    (hct : alookup opts "cell_type" = some ctl)
    (hdm : alookup opts "data_modalities" = some dml)
    (hnokey : alookup opts "data_modality" = none)
    (h1 : species ∈ spl) (h2 : brain_region ∈ brl) (h3 : cell_type ∈ ctl)
    (h4 : data_modality ∉ dml) :
    add_test base opts resp species brain_region cell_type data_modality test_type score_type =
      (.error (.keyError "data_modality"), [.get (optionsUrl base)]) ∧
    edit_test base opts resp test_id species brain_region cell_type data_modality test_type score_type =
      (.error (.keyError "data_modality"), [.get (optionsUrl base)]) := by
  constructor
  · simp [add_test, validateTestFields, hsp, hbr, hct, hdm, hnokey, h1, h2, h3, h4]
  · simp [edit_test, validateTestFields, hsp, hbr, hct, hdm, hnokey, h1, h2, h3, h4]

/-- C10, witness: concrete instantiation on an option map without the
"data_modality" key. -/
theorem C10_data_modality_keyerror_witness :
    add_test VALIDATION_FRAMEWORK_URL optsNoDM resp201 "Mouse (Mus musculus)" "Hippocampus"
        "Other" "sketching" "network structure" "Other" =
      (.error (.keyError "data_modality"), [.get (optionsUrl VALIDATION_FRAMEWORK_URL)]) ∧
    edit_test VALIDATION_FRAMEWORK_URL optsNoDM resp201 "tid" "Mouse (Mus musculus)" "Hippocampus"
        "Other" "sketching" "network structure" "Other" =
      (.error (.keyError "data_modality"), [.get (optionsUrl VALIDATION_FRAMEWORK_URL)]) :=
  C10_data_modality_keyerror VALIDATION_FRAMEWORK_URL "tid" optsNoDM resp201 "Mouse (Mus musculus)"
    "Hippocampus" "Other" "sketching" "network structure" "Other" _ _ _ _
    rfl rfl rfl rfl rfl (by decide) (by decide) (by decide) (by decide)

lemma popKey_alookup_ne {l l' : List (String × JsonVal)} {key k : String} (hk : k ≠ key)
    (h : popKey l key = .ok l') : alookup l' k = alookup l k := by
  induction l generalizing l' with
  | nil => simp [popKey] at h
  | cons kv rest ih =>
      obtain ⟨k', v⟩ := kv
      by_cases hkk : k' = key
      · simp only [popKey, if_pos hkk] at h
        cases h
        subst hkk
        have hkk' : ¬(k' = k) := fun hc => hk hc.symm
        simp [alookup, hkk']
      · simp only [popKey, if_neg hkk] at h
        cases hpk : popKey rest key with
        | error e => rw [hpk] at h; cases h
        | ok l0 =>
            rw [hpk] at h
            cases h
            by_cases hck : k' = k
            · simp [alookup, hck]
            · simp only [alookup, if_neg hck]
              exact ih hpk

lemma alookup_eq_none {l : List (String × JsonVal)} {key : String}
    (h : ∀ p ∈ l, p.1 ≠ key) : alookup l key = none := by
  induction l with
  | nil => rfl
  | cons kv rest ih =>
      obtain ⟨k', v⟩ := kv
      simp only [alookup]
      rw [if_neg (h (k', v) (by simp))]
      exact ih (fun p hp => h p (by simp [hp]))

lemma popKey_alookup_self {l l' : List (String × JsonVal)} {key : String}
    (hnd : (l.map Prod.fst).Nodup) (h : popKey l key = .ok l') :
    alookup l' key = none := by
  induction l generalizing l' with
  | nil => simp [popKey] at h
  | cons kv rest ih =>
      obtain ⟨k', v⟩ := kv
      simp only [List.map_cons, List.nodup_cons, List.mem_map] at hnd
      by_cases hkk : k' = key
      · simp only [popKey, if_pos hkk] at h
        cases h
        subst hkk
        apply alookup_eq_none
        intro p hp hpk
        exact hnd.1 ⟨p, hp, hpk⟩
      · simp only [popKey, if_neg hkk] at h
        cases hpk : popKey rest key with
        | error e => rw [hpk] at h; cases h
        | ok l0 =>
            rw [hpk] at h
            cases h
            simp only [alookup, if_neg hkk]
            exact ih hnd.2 hpk

/-- C4: the local-file interfaces are broken in the code.  Loading an
existing test-definition or test-instance file always fails: the HTTP
status check `str(...) != "<Response [200]>"` is applied to the parsed file
content, so the call raises (via the `.content` access in the raise)
instead of returning the file's data.  And a supplied but non-existing
`instance_path` in `list_test_instances` / `get_model_instance` /
`list_model_instances` raises no local-file error: the call silently falls
through to a network GET. -/
theorem C4_local_file_paths_broken :
    get_test_definition VALIDATION_FRAMEWORK_URL fsC4 respTests200 "dummy_test.json" "ignored-id" "" =
      (.error (.attributeError "content"), ([] : List NetEvent)) ∧
    get_test_instance VALIDATION_FRAMEWORK_URL fsC4 respTests200 "dummy_instance.json" "" "" "" "" =
      (.error (.attributeError "content"), ([] : List NetEvent)) ∧
    list_test_instances VALIDATION_FRAMEWORK_URL fsC4 respTests200 "missing.json" "" "someAlias" =
      (.ok (.arr []),
       [.get "https://validation-dev.brainsimulation.eu/validationtestscode/?test_alias=someAlias&format=json"]) ∧
    get_model_instance VALIDATION_FRAMEWORK_URL fsC4 respInst200 "missing.json" "" "" "alias2" "1.0" =
      (.ok (.obj [("id", .str "i1")]),
       [.get "https://validation-dev.brainsimulation.eu/scientificmodelinstance/?model_alias=alias2&version=1.0&format=json"]) ∧
    list_model_instances VALIDATION_FRAMEWORK_URL fsC4 respInst200 "missing.json" "" "alias2" =
      (.ok (.arr [.obj [("id", .str "i1")]]),
       [.get "https://validation-dev.brainsimulation.eu/scientificmodelinstance/?model_alias=alias2&format=json"]) :=
  ⟨rfl, rfl, rfl, rfl, rfl⟩

/-- C9: `get_model` with `instances := false` removes exactly the
"instances" entry of the returned record and with `images := false` exactly
the "images" entry, leaving the lookup of every other field unchanged (and,
for a well-formed record with distinct keys, the popped key is gone); a 200
response carrying zero matching models raises a descriptive error. -/
theorem C9_get_model_field_removal (base mid content : String)
    (fields l1 l2 : List (String × JsonVal)) (ms : List JsonVal)
    (hmid : mid ≠ "")
    (hpop1 : popKey fields "instances" = .ok l1)
    (hpop2 : popKey fields "images" = .ok l2) :
    get_model base ⟨200, content, .obj [("models", .arr (JsonVal.obj fields :: ms))]⟩ mid "" false true =
      (.ok (.obj l1), [.get (base ++ "/scientificmodel/?id=" ++ mid ++ "&format=json")]) ∧
    (∀ k, k ≠ "instances" → alookup l1 k = alookup fields k) ∧
    ((fields.map Prod.fst).Nodup → alookup l1 "instances" = none) ∧
    get_model base ⟨200, content, .obj [("models", .arr (JsonVal.obj fields :: ms))]⟩ mid "" true false =
      (.ok (.obj l2), [.get (base ++ "/scientificmodel/?id=" ++ mid ++ "&format=json")]) ∧
    (∀ k, k ≠ "images" → alookup l2 k = alookup fields k) ∧
    ((fields.map Prod.fst).Nodup → alookup l2 "images" = none) ∧
    get_model base ⟨200, content, .obj [("models", .arr ([] : List JsonVal))]⟩ mid "" true true =
      (.error (.exception ("Error in retrieving model. Possibly invalid model_id or alias. Response = " ++ pyStr (.obj [("models", .arr ([] : List JsonVal))]))),
       [.get (base ++ "/scientificmodel/?id=" ++ mid ++ "&format=json")]) := by
  have hres : ("<Response [" ++ toString 200 ++ "]>") = "<Response [200]>" := rfl
  refine ⟨?_, ?_, ?_, ?_, ?_, ?_, ?_⟩
  · simp [get_model, hmid, respStr, jsonKey, alookup, hpop1, hres]
  · intro k hk
    exact popKey_alookup_ne hk hpop1
  · intro hnd
    exact popKey_alookup_self hnd hpop1
  · simp [get_model, hmid, respStr, jsonKey, alookup, hpop2, hres]
  · intro k hk
    exact popKey_alookup_ne hk hpop2
  · intro hnd
    exact popKey_alookup_self hnd hpop2
  · simp [get_model, hmid, respStr, jsonKey, alookup, hres]

/-- C9, witness: concrete instantiation on a four-field model record. -/
theorem C9_get_model_field_removal_witness :
    get_model "https://validation-dev.brainsimulation.eu"
        ⟨200, "", .obj [("models", .arr (JsonVal.obj
            [("id", .str "m1"), ("instances", .arr []), ("images", .arr []), ("name", .str "M")] :: []))]⟩
        "m1" "" false true =
      (.ok (.obj [("id", .str "m1"), ("images", .arr []), ("name", .str "M")]),
       [.get ("https://validation-dev.brainsimulation.eu" ++ "/scientificmodel/?id=" ++ "m1" ++ "&format=json")]) ∧
    alookup [("id", JsonVal.str "m1"), ("images", .arr []), ("name", .str "M")] "name" =
      alookup [("id", JsonVal.str "m1"), ("instances", .arr []), ("images", .arr []), ("name", .str "M")] "name" := by
  have h := C9_get_model_field_removal "https://validation-dev.brainsimulation.eu" "m1" ""
    [("id", JsonVal.str "m1"), ("instances", .arr []), ("images", .arr []), ("name", .str "M")]
    [("id", JsonVal.str "m1"), ("images", .arr []), ("name", .str "M")]
    [("id", JsonVal.str "m1"), ("instances", .arr []), ("name", .str "M")]
    [] (by decide) rfl rfl
  exact ⟨h.1, h.2.1 "name" (by decide)⟩

/-- C7: at the final login-protocol step, a non-200 status raises the
communication error; a 200 status with terminal URL `<base>/config.json`
yields exactly the token extracted at the JSON path
`auth.token.access_token`; a 200 status with any other terminal URL raises
the authentication-failure error when the URL contains the substring
"error" and the unhandled-flow error otherwise — and in both failure cases
the result is an error, so no token is stored. -/
theorem C7_login_final_step (base finalUrl : String) (status : Nat) (body : JsonVal) :
    (status ≠ 200 →
      hbp_auth_final base status finalUrl body = .error (.exception "Communication error")) ∧
    (hbp_auth_final base 200 (base ++ "/config.json") body =
      (jsonKey body "auth").bind (fun a =>
        (jsonKey a "token").bind (fun t => jsonKey t "access_token"))) ∧
    (finalUrl ≠ base ++ "/config.json" → strContains finalUrl "error" = true →
      hbp_auth_final base 200 finalUrl body =
        .error (.exception ("Authentication Failure: No token retrieved." ++ finalUrl))) ∧
    (finalUrl ≠ base ++ "/config.json" → strContains finalUrl "error" = false →
      hbp_auth_final base 200 finalUrl body =
        .error (.exception ("Unhandled error in Authentication." ++ finalUrl))) := by
  refine ⟨?_, ?_, ?_, ?_⟩
  · intro h
    simp [hbp_auth_final, h]
  · cases ha : jsonKey body "auth" with
    | error e => simp [hbp_auth_final, ha, Except.bind]
    | ok a =>
        cases ht : jsonKey a "token" with
        | error e => simp [hbp_auth_final, ha, ht, Except.bind]
        | ok t => simp [hbp_auth_final, ha, ht, Except.bind]
  · intro h1 h2
    simp [hbp_auth_final, h1, h2]
  · intro h1 h2
    simp [hbp_auth_final, h1, h2]

/-- C7, witness: concrete instantiations — a 403 status raises the
communication error, and a 200 status landing on an error page raises the
authentication failure. -/
theorem C7_login_final_step_witness :
    hbp_auth_final "https://validation-dev.brainsimulation.eu" 403
        "https://validation-dev.brainsimulation.eu/config.json" .null =
      .error (.exception "Communication error") ∧
    hbp_auth_final "https://validation-dev.brainsimulation.eu" 200
        "https://services.humanbrainproject.eu/oidc/login?error=denied" .null =
      .error (.exception ("Authentication Failure: No token retrieved." ++
        "https://services.humanbrainproject.eu/oidc/login?error=denied")) :=
  ⟨(C7_login_final_step "https://validation-dev.brainsimulation.eu"
      "https://validation-dev.brainsimulation.eu/config.json" 403 .null).1 (by decide),
   (C7_login_final_step "https://validation-dev.brainsimulation.eu"
      "https://services.humanbrainproject.eu/oidc/login?error=denied" 200 .null).2.2.1
      (by decide) (by decide)⟩

/-- C8: `_get_platform` reports 127.0.0.1 whenever the connectivity probe
reports no connection or the hostname lookup fails, and the resolved
address of the network hostname otherwise; the probe returns false exactly
when its 1-second-timeout connection attempt to the fixed external address
fails or times out. -/
theorem C8_platform_ip (env : PlatformEnv) (attempt : String → Nat → ProbeOutcome)
    (resolve : String → Option String) :
    (have_internet_connection attempt = false ∨ resolve env.network_name = none →
      (get_platform env attempt resolve).ip_addr = "127.0.0.1") ∧
    (∀ a, have_internet_connection attempt = true → resolve env.network_name = some a →
      (get_platform env attempt resolve).ip_addr = a) ∧
    (have_internet_connection attempt = false ↔
      attempt probeAddress 1 = .connectionFailed ∨ attempt probeAddress 1 = .timedOut) := by
  refine ⟨?_, ?_, ?_⟩
  · intro h
    rcases h with h | h
    · simp [get_platform, h]
    · cases hic : have_internet_connection attempt <;> simp [get_platform, h, hic]
  · intro a h1 h2
    simp [get_platform, h1, h2]
  · unfold have_internet_connection
    cases attempt probeAddress 1 <;> simp

/-- C8, witness: a timed-out probe yields the loopback address, and a
successful probe with a resolving hostname yields the resolved address. -/
theorem C8_platform_ip_witness :
    (get_platform ⟨"host", "64bit", "ELF", "x86_64", "cpu", "5.0", "Linux", "v1"⟩
        (fun _ _ => .timedOut) (fun _ => none)).ip_addr = "127.0.0.1" ∧
    (get_platform ⟨"host", "64bit", "ELF", "x86_64", "cpu", "5.0", "Linux", "v1"⟩
        (fun _ _ => .connected) (fun _ => some "192.168.1.9")).ip_addr = "192.168.1.9" :=
  ⟨(C8_platform_ip ⟨"host", "64bit", "ELF", "x86_64", "cpu", "5.0", "Linux", "v1"⟩
      (fun _ _ => .timedOut) (fun _ => none)).1 (Or.inl rfl),
   (C8_platform_ip ⟨"host", "64bit", "ELF", "x86_64", "cpu", "5.0", "Linux", "v1"⟩
      (fun _ _ => .connected) (fun _ => some "192.168.1.9")).2.1 "192.168.1.9" rfl rfl⟩

/-- C5: `run_test` with `register_result=True` on a model carrying no
catalog instance id and no registration metadata prints the not-saved
message, but registration is not skipped: the source has no return after
the print, so execution falls through into the registration tail and
raises `AttributeError` reading `score.model.instance_id`.  The only
network activity is the `ModelCatalog` login; no result-registration
request is issued. -/
theorem C5_run_test_fall_through :
    run_test_register VALIDATION_FRAMEWORK_URL (fun _ => none) opts0
        resp201 respInst200 respInst200 respTests200 resp201
        "plat" "20261012-101500" "stubmodel" (fun _ => "")
        ⟨⟨none, none⟩, "t1", 0, none, none, none⟩ "" none =
      ⟨.error (.attributeError "instance_id"), [.login],
       ["Model = stubmodel => Results NOT saved on validation framework: no model.instance_id or model_metadata provided!"]⟩ := rfl

/-- C6 (amended): `register_result` POSTs the assembled result record as a
single-element list and then unconditionally prints "Result Registered!,
UUID = " followed by the raw response content — no status check is
performed, so every response status, 201 or not, is reported as a success
and never surfaced as an error. -/
theorem C6_register_result_no_status_check (base content platformStr : String)
    (status : Nat) (body : JsonVal) (upl : List String → String)
    (tr : ScoreObj) (mid proj : String)
    (hid : tr.model.id = some mid) (hproj : tr.project = some proj) :
    register_result base ⟨status, content, body⟩ platformStr upl none tr =
      ⟨.ok (), [.post (base ++ "/validationmodelresultrest2/?format=json")],
       ["Result Registered!, UUID = " ++ content],
       [⟨mid, tr.testId, "", tr.score, tr.passed, platformStr, proj, tr.score⟩]⟩ := by
  simp [register_result, hid, hproj]

/-- C6, counterexample to the claim as stated: a 500 response to the result
POST is still reported as a success — the call returns normally and prints
the registered-UUID message with the raw response content. -/
theorem C6_register_result_counterexample :
    register_result VALIDATION_FRAMEWORK_URL ⟨500, "Internal Server Error", .null⟩ "plat"
        (fun _ => "") none ⟨⟨some "m1", some "mi1"⟩, "t1", 3/2, none, none, some "proj42"⟩ =
      ⟨.ok (), [.post (VALIDATION_FRAMEWORK_URL ++ "/validationmodelresultrest2/?format=json")],
       ["Result Registered!, UUID = Internal Server Error"],
       [⟨"m1", "t1", "", 3/2, none, "plat", "proj42", 3/2⟩]⟩ ∧
    500 ≠ 201 :=
  ⟨rfl, by decide⟩

/-- C6, witness: concrete instantiation of the no-status-check theorem at a
404 response. -/
theorem C6_register_result_no_status_check_witness :
    register_result VALIDATION_FRAMEWORK_URL ⟨404, "not found", .null⟩ "plat"
        (fun _ => "upload") none ⟨⟨some "m9", none⟩, "t9", 0, none, some true, some "p9"⟩ =
      ⟨.ok (), [.post (VALIDATION_FRAMEWORK_URL ++ "/validationmodelresultrest2/?format=json")],
       ["Result Registered!, UUID = " ++ "not found"],
       [⟨"m9", "t9", "", 0, some true, "plat", "p9", 0⟩]⟩ := by
  have h := C6_register_result_no_status_check VALIDATION_FRAMEWORK_URL "not found" "plat"
      404 .null (fun _ => "upload") ⟨⟨some "m9", none⟩, "t9", 0, none, some true, some "p9"⟩
      "m9" "p9" rfl rfl
  exact h

end HbpVF
